import Mathlib

/-!
Shallow embedding of the cryo-EM Pegasus pipeline generator
(`service/PipelineWorkflow.py`), restricted to the parts that build the
workflow DAG: string-based artifact-name derivation, the transformation
catalog with its clustering policy, replica-catalog bookkeeping, the
per-acquisition job loop, and the debug/production sampling of the
discovered fraction files.

Filesystem discovery (`find_files2`, a glob) is an external effect: the
embedding takes the three discovered file lists as inputs.  Python's
global `random` state is made explicit as a `seed` argument consumed
only by `sample` (the model of `random.sample`).
-/

namespace CryoPW

/-! ### Python string primitives -/

/-- One scanning step of Python's `str.replace`, fuel-indexed so that the
kernel can evaluate it.  At each position, if the (nonempty) pattern is a
prefix of the remaining text it is replaced and scanning resumes after
the replaced text; otherwise one character is kept.  `fuel` bounds the
number of steps; callers pass the length of the text, which suffices
because every step consumes at least one character. -/
def repGo (pat rep : List Char) : Nat → List Char → List Char
  | 0, s => s
  | _ + 1, [] => []
  | n + 1, c :: rest =>
    if pat ≠ [] ∧ pat <+: (c :: rest) then
      rep ++ repGo pat rep n (rest.drop (pat.length - 1))
    else
      c :: repGo pat rep n rest

/-- Python `s.replace(pat, rep)` on character lists (all occurrences,
leftmost first, non-overlapping).  The call sites in the source always
use nonempty patterns, which is the case this definition models. -/
def replaceL (pat rep s : List Char) : List Char := repGo pat rep s.length s

/-- Python `s.replace(pat, rep)` for strings. -/
def pyReplace (s pat rep : String) : String := ⟨replaceL pat.data rep.data s.data⟩

/-- Python `os.path.basename`: the part of the path after the last `/`. -/
def basename (s : String) : String := ⟨(s.data.reverse.takeWhile (fun c => c ≠ '/')).reverse⟩

/-- Python `os.path.dirname`: the path up to (not including) the last `/`,
with trailing slashes stripped unless the result is all slashes. -/
def dirname (s : String) : String :=
  let head := (s.data.reverse.dropWhile (fun c => c ≠ '/')).reverse
  if head.all (fun c => c = '/') then ⟨head⟩
  else ⟨(head.reverse.dropWhile (fun c => c = '/')).reverse⟩

/-- The tail of the regex `"_<sfx>.<ext>$"` used at line 330 of the source
(`re.sub`): `tail` matches iff it is `'_'`, then `sfx`, then any single
character (the unescaped `.` of the regex), then `ext`. -/
def fracTailMatches (sfx ext : String) (tail : List Char) : Bool :=
  decide (tail.length = sfx.data.length + ext.data.length + 2) &&
  decide (tail.take 1 = ['_']) &&
  decide ((tail.drop 1).take sfx.data.length = sfx.data) &&
  decide (tail.drop (sfx.data.length + 2) = ext.data)

/-- Python `re.sub("_%s.%s$" % (sfx, ext), "", name)`: strip the matching
tail if the end of `name` matches, otherwise return `name` unchanged.
Because the pattern is anchored with `$` and has fixed length, at most the
final `sfx.length + ext.length + 2` characters can match. -/
def reSubFrac (sfx ext name : String) : String :=
  let n := sfx.data.length + ext.data.length + 2
  if name.data.length < n then name
  else if fracTailMatches sfx ext (name.data.drop (name.data.length - n)) then
    ⟨name.data.take (name.data.length - n)⟩
  else name

/-- Python `s.split(sep)` for a single-character separator (the source
only splits on `"_"`). -/
def pySplitChar (sep : Char) : List Char → List (List Char)
  | [] => [[]]
  | c :: rest =>
    if c = sep then [] :: pySplitChar sep rest
    else
      match pySplitChar sep rest with
      | [] => [[c]]
      | g :: gs => (c :: g) :: gs

/-- Python `sep.join(groups)` for a single-character separator. -/
def joinSep (sep : Char) : List (List Char) → List Char
  | [] => []
  | [g] => g
  | g :: gs => g ++ sep :: joinSep sep gs

/-- Python `"_".join(fname.split("_")[:-1]) + ".jpg"` (line 339 of the
source): drop the last `_`-separated component and append `.jpg`. -/
def jpegName (fname : String) : String :=
  String.mk (joinSep '_' ((pySplitChar '_' fname.data).dropLast)) ++ ".jpg"

/-- Models Python's `random.sample(pop, k)` with the hidden global RNG
state made explicit as `seed`: `none` (ValueError) when the population is
smaller than `k`, otherwise `k` distinct elements of `pop` whose identity
depends on the seed. -/
def sample (seed : Nat) (pop : List String) (k : Nat) : Option (List String) :=
  if pop.length < k then none else some ((pop.rotate seed).take k)

/-! ### Data model -/

/-- Per-run parameters set by `set_params` on the workflow object. -/
structure Params where
  apix : String
  fmdose : String
  kev : String
  rawgainref : String
  rawdefectsmap : String
  basenamePre : String
  basenameSfx : String
  basenameExt : String
  throw : String
  trunc : String
  superresolution : Bool
  debug : Bool
deriving DecidableEq, Repr

/-- One declared output of a job: logical file name plus the
`stage_out` flag and the `register_replica` flag (`none` when the call
site does not pass it). -/
structure Output where
  lfn : String
  stageOut : Bool
  registerReplica : Option Bool
deriving DecidableEq, Repr

/-- One Pegasus job: transformation name, argument list (File arguments
appear as their logical names), declared inputs, declared outputs. -/
structure Job where
  transformation : String
  args : List String
  inputs : List String
  outputs : List Output
deriving DecidableEq, Repr

/-- The observable state `create_workflow` mutates: the job list of
`self.wf` and the replica catalog `self.rc` (logical name ↦ pfn). -/
structure WfState where
  jobs : List Job
  rc : List (String × String)
deriving DecidableEq, Repr

/-- The ways the source's `create_workflow` can abort.  `indexError` is
the `[0]` on an empty `find_files2` result; `valueError` is
`random.sample` with a sample larger than the population; `systemExit`
is `sys.exit` on an unknown image extension.  `emptyInputSetError` does
not occur anywhere in the code: it is modelled from the spec's error
taxonomy (§7) so that the spec's claim about it can be stated. -/
inductive PyErr where
  | indexError
  | valueError
  | systemExit (code : Nat)
  | emptyInputSetError
deriving DecidableEq, Repr

/-! ### Transformation catalog (`create_transformation_catalog`) -/

/-- One entry of the transformation catalog: name, physical executable
path and the Pegasus profile values attached in the source. -/
structure Transformation where
  name : String
  pfn : String
  cores : String
  runtime : String
  memory : Option String
  gliteArguments : Option String
  clustersSize : Option Nat
deriving DecidableEq, Repr

/-- `create_transformation_catalog`: the nine transformations with their
profiles; the four per-acquisition job types share one `clusters.size`
value chosen from the debug flag. -/
def create_transformation_catalog (baseDir : String) (debug : Bool) : List Transformation :=
  let clusterSize : Nat := if debug then 5 else 100
  [ { name := "dm2mrc_gainref", pfn := baseDir ++ "/workflow/scripts/imod_dm2mrc_wrapper.sh",
      cores := "4", runtime := "180", memory := none, gliteArguments := none,
      clustersSize := none },
    { name := "newstack_gainref", pfn := baseDir ++ "/workflow/scripts/imod_newstack_wrapper.sh",
      cores := "4", runtime := "180", memory := none, gliteArguments := none,
      clustersSize := none },
    { name := "clip_gainref", pfn := baseDir ++ "/workflow/scripts/imod_clip_wrapper.sh",
      cores := "4", runtime := "180", memory := none, gliteArguments := none,
      clustersSize := none },
    { name := "clip_gainref_superres", pfn := baseDir ++ "/workflow/scripts/imod_clip_wrapper.sh",
      cores := "4", runtime := "180", memory := none, gliteArguments := none,
      clustersSize := none },
    { name := "dm2mrc_defect_map", pfn := baseDir ++ "/workflow/scripts/imod_dm2mrc_wrapper.sh",
      cores := "4", runtime := "180", memory := none, gliteArguments := none,
      clustersSize := none },
    { name := "copy_jpeg", pfn := baseDir ++ "/workflow/scripts/cp_wrapper.sh",
      cores := "1", runtime := "20", memory := none, gliteArguments := none,
      clustersSize := some clusterSize },
    { name := "MotionCor2", pfn := baseDir ++ "/workflow/scripts/motioncor2_wrapper.sh",
      cores := "4", runtime := "600", memory := some "4192",
      gliteArguments := some "--gres=gpu:p100:2", clustersSize := some clusterSize },
    { name := "gctf", pfn := baseDir ++ "/workflow/scripts/gctf_wrapper.sh",
      cores := "4", runtime := "600", memory := some "4192",
      gliteArguments := some "--gres=gpu:p100:2", clustersSize := some clusterSize },
    { name := "e2proc2d", pfn := baseDir ++ "/workflow/scripts/e2proc2d_wrapper.sh",
      cores := "1", runtime := "600", memory := some "2048", gliteArguments := none,
      clustersSize := some clusterSize } ]

/-- The `clusters.size` profile value of the named transformation, if any. -/
def clusterSizeOf (cat : List Transformation) (n : String) : Option Nat :=
  match cat.find? (fun t => t.name = n) with
  | some t => t.clustersSize
  | none => none

/-! ### Artifact-name derivation in `create_workflow` (lines 232-267) -/

/-- Line 237: `Gain_Ref_SR_path = Raw_Gain_Ref_SR_path.replace('x1.m1.dm4','_SuperRes.x1.m1.mrc')`. -/
def gainSRPath (g : String) : String := pyReplace g "x1.m1.dm4" "_SuperRes.x1.m1.mrc"

/-- Line 244: `Gain_Ref_path = Gain_Ref_SR_path.replace('_SuperRes.x1.m1.mrc','_std.x1.m1.mrc')`. -/
def gainRefPath (g : String) : String :=
  pyReplace (gainSRPath g) "_SuperRes.x1.m1.mrc" "_std.x1.m1.mrc"

/-- Line 250: `FlipY_SR_path = Gain_Ref_SR_path.replace('_SuperRes.x1.m1.mrc','_sr.flipy.x1.m1.mrc')`. -/
def flipYSRPath (g : String) : String :=
  pyReplace (gainSRPath g) "_SuperRes.x1.m1.mrc" "_sr.flipy.x1.m1.mrc"

/-- Line 257: `FlipY_path = Gain_Ref_path.replace('_std.x1.m1.mrc','_std.flipy.x1.m1.mrc')`. -/
def flipYPath (g : String) : String :=
  pyReplace (gainRefPath g) "_std.x1.m1.mrc" "_std.flipy.x1.m1.mrc"

/-- Line 265: `Defect_Map_path = Raw_Defect_Map_path.replace('.dm4','.mrc')`. -/
def defectMapPath (d : String) : String := pyReplace d ".dm4" ".mrc"

/-! ### The gain-reference / defect-map jobs (lines 270-306) -/

/-- Lines 272-275: the `dm2mrc_gainref` job for the super-resolution gain reference. -/
def dm2mrcGainrefJob (g : String) : Job :=
  { transformation := "dm2mrc_gainref",
    args := [basename g, basename (gainSRPath g)],
    inputs := [basename g],
    outputs := [⟨basename (gainSRPath g), true, none⟩] }

/-- Lines 278-281: the `newstack_gainref` job (`newstack -bin 2`). -/
def newstackGainrefJob (g : String) : Job :=
  { transformation := "newstack_gainref",
    args := ["-bin", "2", basename (gainSRPath g), basename (gainRefPath g)],
    inputs := [basename (gainSRPath g)],
    outputs := [⟨basename (gainRefPath g), true, none⟩] }

/-- Lines 285-288: the `clip_gainref` job flipping the standard-resolution gain reference. -/
def clipGainrefJob (g : String) : Job :=
  { transformation := "clip_gainref",
    args := ["flipy", basename (gainRefPath g), basename (flipYPath g)],
    inputs := [basename (gainRefPath g)],
    outputs := [⟨basename (flipYPath g), true, none⟩] }

/-- Lines 290-293: the `clip_gainref_superres` job flipping the super-resolution gain reference. -/
def clipGainrefSRJob (g : String) : Job :=
  { transformation := "clip_gainref_superres",
    args := ["flipy", basename (gainSRPath g), basename (flipYSRPath g)],
    inputs := [basename (gainSRPath g)],
    outputs := [⟨basename (flipYSRPath g), true, none⟩] }

/-- Lines 297-300: the `dm2mrc_defect_map` job. -/
def dm2mrcDefectMapJob (d : String) : Job :=
  { transformation := "dm2mrc_defect_map",
    args := [basename d, basename (defectMapPath d)],
    inputs := [basename d],
    outputs := [⟨basename (defectMapPath d), true, none⟩] }

/-- The list of the five jobs added at lines 302-306, in order. -/
def gainDefectJobs (g d : String) : List Job :=
  [dm2mrcGainrefJob g, newstackGainrefJob g, clipGainrefJob g, clipGainrefSRJob g,
   dm2mrcDefectMapJob d]

/-- State of `(self.wf, self.rc)` after the gain-reference / defect-map
part of `create_workflow` (lines 232-306): the two raw replicas and the
five conversion jobs. -/
def gainDefectState (g d : String) : WfState :=
  { jobs := gainDefectJobs g d,
    rc := [(basename g, "file://" ++ g), (basename d, "file://" ++ d)] }

/-! ### The per-acquisition loop body (lines 323-400) -/

/-- Line 330: the basename with the `_<suffix>.<extension>` tail stripped. -/
def fracBase (p : Params) (path : String) : String :=
  reSubFrac p.basenameSfx p.basenameExt (basename path)

/-- Line 345: the `copy_jpeg` job with its fake `-IN` input lfn. -/
def copyJpegJob (path : String) : Job :=
  let jname := jpegName (basename path)
  { transformation := "copy_jpeg",
    args := ["-v", "-L", "./" ++ jname ++ "-IN", jname],
    inputs := [jname ++ "-IN"],
    outputs := [⟨jname, true, some false⟩] }

/-- Lines 363-370: the `MotionCor2` job; `flipYName` is the Y-flipped
standard-resolution gain reference shared by every acquisition. -/
def motionCorJob (p : Params) (flipYName path : String) : Job :=
  let fname := basename path
  let base := fracBase p path
  let mc2in := if p.basenameExt = "tiff" then "-InTiff"
               else if p.basenameExt = "mrc" then "-InMrc" else "-InEer"
  { transformation := "MotionCor2",
    args := [mc2in, "./" ++ fname, "-OutMrc", base ++ ".mrc", "-Gain", flipYName,
             "-Iter 7 -Tol 0.5 -RotGain 2", "-PixSize", p.apix, "-FmDose", p.fmdose,
             "-Throw", p.throw, "-Trunc", p.trunc, "-Gpu 0 1 -Serial 0",
             "-OutStack 0", "-SumRange 0 0"],
    inputs := [fname, flipYName],
    outputs := [⟨base ++ ".mrc", false, some false⟩, ⟨base ++ "_DW.mrc", true, some false⟩] }

/-- Lines 374-390: the `gctf` job and its derived output names. -/
def gctfJob (p : Params) (path : String) : Job :=
  let mrcName := fracBase p path ++ ".mrc"
  { transformation := "gctf",
    args := ["--apix", p.apix, "--kV", p.kev, "--Cs", "2.7", "--ac", "0.1",
             "--ctfstar", pyReplace mrcName ".mrc" ".star", "--gid", "0",
             "--boxsize", "512", mrcName],
    inputs := [mrcName],
    outputs := [⟨pyReplace mrcName ".mrc" ".star", true, some true⟩,
                ⟨pyReplace mrcName ".mrc" ".ctf", true, some true⟩,
                ⟨pyReplace mrcName ".mrc" "_gctf.log", true, some true⟩] }

/-- Lines 393-397: the `e2proc2d` job producing the CTF preview jpeg. -/
def e2proc2dJob (p : Params) (path : String) : Job :=
  let mrcName := fracBase p path ++ ".mrc"
  { transformation := "e2proc2d",
    args := [pyReplace mrcName ".mrc" ".ctf", pyReplace mrcName ".mrc" "_ctf.jpg"],
    inputs := [pyReplace mrcName ".mrc" ".ctf"],
    outputs := [⟨pyReplace mrcName ".mrc" "_ctf.jpg", true, none⟩] }

/-- The four jobs one loop iteration adds, in the order the source adds
them (`copy_jpeg` at line 348, `MotionCor2` at 371, `gctf` at 399,
`e2proc2d` at 400). -/
def perFileJobs (p : Params) (flipYName path : String) : List Job :=
  [copyJpegJob path, motionCorJob p flipYName path, gctfJob p path, e2proc2dJob p path]

/-- The two replica-catalog entries one loop iteration adds (lines 327
and 344): the fraction file and the fake `-IN` jpeg input. -/
def perFileRC (path : String) : List (String × String) :=
  let fname := basename path
  let jname := jpegName fname
  [(fname, "file://" ++ path),
   (jname ++ "-IN", "file://" ++ (dirname path ++ "/" ++ jname))]

/-- One iteration of the loop at lines 323-400, in source order: add the
fraction replica, add the jpeg replica and the `copy_jpeg` job, then
check the extension — `sys.exit(1)` on an unknown one (lines 353-361) —
and finally add the `MotionCor2`, `gctf` and `e2proc2d` jobs. -/
def processFile (p : Params) (flipYName : String) (st : WfState) (path : String) :
    WfState × Option PyErr :=
  let st1 : WfState := { st with rc := st.rc ++ [(basename path, "file://" ++ path)] }
  let jname := jpegName (basename path)
  let st2 : WfState :=
    { jobs := st1.jobs ++ [copyJpegJob path],
      rc := st1.rc ++ [(jname ++ "-IN", "file://" ++ (dirname path ++ "/" ++ jname))] }
  if p.basenameExt = "tiff" ∨ p.basenameExt = "mrc" ∨ p.basenameExt = "eer" then
    ({ st2 with
        jobs := st2.jobs ++ [motionCorJob p flipYName path, gctfJob p path, e2proc2dJob p path] },
      none)
  else
    (st2, some (.systemExit 1))

/-- The whole loop: processes the sampled files in order, stopping at the
first abort (Python's exception propagates out of the loop). -/
def processFiles (p : Params) (flipYName : String) : WfState → List String → WfState × Option PyErr
  | st, [] => (st, none)
  | st, f :: rest =>
    match processFile p flipYName st f with
    | (st', none) => processFiles p flipYName st' rest
    | (st', some e) => (st', some e)

/-- The sample size at lines 316-321: 10 in debug mode, 1000 otherwise. -/
def sampleCount (debug : Bool) : Nat := if debug then 10 else 1000

/-- `create_workflow` (lines 223-400).  `gainFiles`, `defectFiles` and
`fractionFiles` are the results of the three `find_files2` glob calls
(an external filesystem effect); `seed` is the hidden state of Python's
global RNG, consumed only by `sample`.  Returns the final
`(self.wf, self.rc)` state together with the abort, if any: the caller
receives a workflow graph exactly when the second component is `none`. -/
def create_workflow (p : Params) (gainFiles defectFiles fractionFiles : List String)
    (seed : Nat) : WfState × Option PyErr :=
  match gainFiles with
  | [] => ({ jobs := [], rc := [] }, some .indexError)
  | g :: _ =>
    match defectFiles with
    | [] => ({ jobs := [], rc := [(basename g, "file://" ++ g)] }, some .indexError)
    | d :: _ =>
      let st0 := gainDefectState g d
      match sample seed fractionFiles (sampleCount p.debug) with
      | none => (st0, some .valueError)
      | some sel => processFiles p (basename (flipYPath g)) st0 sel

/-! ### Derived dependency edges -/

/-- The logical names a job produces. -/
def outLfns (j : Job) : List String := j.outputs.map (fun o => o.lfn)

/-- Modelled from the spec: the code stores no edges — it builds the
`Workflow` with `infer_dependencies=True` (line 224) and never declares
a dependency, so the external engine derives edge X→Y exactly when some
artifact is an output of X and an input of Y (spec §4.5). -/
def edge (x y : Job) : Prop := ∃ a, a ∈ outLfns x ∧ a ∈ y.inputs

instance (x y : Job) : Decidable (edge x y) := by
  unfold edge; exact List.decidableBEx _ _

/-- How many jobs of the given transformation the state holds. -/
def countJobs (n : String) (st : WfState) : Nat :=
  (st.jobs.filter (fun j => j.transformation = n)).length

/-! ### Side conditions and analysis helpers -/

/-- `cleanApp pat a = true` says that scanning `a ++ pat` finds no
occurrence of `pat` before the final one, i.e. `str.replace` reaches the
trailing `pat` intact.  It holds for every realistic stem (checkable by
`decide` on concrete inputs). -/
def cleanApp (pat : List Char) : List Char → Bool
  | [] => true
  | c :: a => !(decide (pat <+: c :: (a ++ pat))) && cleanApp pat a

/-- The last three characters of a string, latest first: a cheap
fingerprint distinguishing the artifact-name suffix families
(`.dm4` / `.tiff` / `-IN` / `.mrc` / `.star` / `.ctf` / `.log` / `.jpg`). -/
def tail3 (s : String) : List Char := s.data.reverse.take 3

/-! ### Concrete fixtures used by witnesses and counterexamples -/

/-- A debug-mode parameter set with the dataset's usual naming scheme. -/
def p0 : Params :=
  { apix := "1.08", fmdose := "1.275", kev := "300", rawgainref := "*x1.m1.dm4",
    rawdefectsmap := "*Map.m1.dm4", basenamePre := "May08", basenameSfx := "fractions",
    basenameExt := "tiff", throw := "0", trunc := "0", superresolution := true,
    debug := true }

/-- The discovered raw gain reference used by the fixtures. -/
def gain0 : String := "/in/CountRef_x1.m1.dm4"

/-- The discovered raw defect map used by the fixtures. -/
def defect0 : String := "/in/defects.dm4"

/-- `n` discovered per-acquisition fraction files. -/
def fracN (n : Nat) : List String :=
  (List.range n).map
    (fun i => "/in/Images-Disc1/G1/Data/m_" ++ toString i ++ "_fractions.tiff")

/-- `p0` with an image extension that is none of `tiff`/`mrc`/`eer`. -/
def pBad : Params := { p0 with basenameExt := "raw" }

/-- `tail3` fingerprints of the raw, producer-less logical names entered
into the replica catalog (`.dm4`, `.tiff`, `-IN`). -/
def rawTails : List (List Char) := [['4', 'm', 'd'], ['f', 'f', 'i'], ['N', 'I', '-']]

/-- `tail3` fingerprints of the node-produced logical names
(`.mrc`, `.star`, `.ctf`, `.log`, `.jpg`). -/
def prodTails : List (List Char) :=
  [['c', 'r', 'm'], ['r', 'a', 't'], ['f', 't', 'c'], ['g', 'o', 'l'], ['g', 'p', 'j']]

/-! ## Lemmas about the string primitives -/

theorem repGo_nil (pat rep : List Char) (n : Nat) : repGo pat rep n [] = [] := by
  cases n <;> rfl

theorem repGo_clean (pat rep : List Char) (hpat : pat ≠ []) :
    ∀ (a : List Char) (n : Nat), cleanApp pat a = true → a.length + pat.length ≤ n →
      repGo pat rep n (a ++ pat) = a ++ rep := by
  intro a
  induction a with
  | nil =>
    intro n _ hn
    obtain ⟨q, qs, rfl⟩ : ∃ q qs, pat = q :: qs := by
      cases pat with
      | nil => exact absurd rfl hpat
      | cons q qs => exact ⟨q, qs, rfl⟩
    obtain ⟨m, rfl⟩ : ∃ m, n = m + 1 := by
      cases n with
      | zero => simp at hn
      | succ m => exact ⟨m, rfl⟩
    simp only [List.nil_append, repGo]
    rw [if_pos ⟨hpat, List.prefix_refl _⟩]
    simp [List.drop_length, repGo_nil]
  | cons c a ih =>
    intro n hclean hn
    simp only [cleanApp, Bool.and_eq_true, Bool.not_eq_true', decide_eq_false_iff_not] at hclean
    obtain ⟨hnp, hca⟩ := hclean
    obtain ⟨m, rfl⟩ : ∃ m, n = m + 1 := by
      cases n with
      | zero => simp at hn
      | succ m => exact ⟨m, rfl⟩
    simp only [List.cons_append, repGo]
    rw [if_neg (fun h => hnp h.2)]
    have : repGo pat rep m (a ++ pat) = a ++ rep := by
      apply ih m hca
      simp only [List.length_cons] at hn
      omega
    exact congrArg (fun l => c :: l) this

theorem pyReplace_clean (a pat rep : String) (hpat : pat.data ≠ [])
    (h : cleanApp pat.data a.data = true) :
    pyReplace (a ++ pat) pat rep = a ++ rep := by
  apply String.ext
  show replaceL pat.data rep.data (a.data ++ pat.data) = a.data ++ rep.data
  unfold replaceL
  rw [List.length_append]
  exact repGo_clean _ _ hpat _ _ h (le_refl _)

theorem repGo_no_occ (pat rep : List Char) :
    ∀ (n : Nat) (s : List Char), ¬ (pat <:+: s) → repGo pat rep n s = s := by
  intro n
  induction n with
  | zero => intro s _; rfl
  | succ m ih =>
    intro s hno
    cases s with
    | nil => rfl
    | cons c rest =>
      simp only [repGo]
      rw [if_neg (fun h => hno h.2.isInfix)]
      rw [ih rest (fun h => hno (List.infix_cons h))]

theorem pyReplace_no_occ (s pat rep : String) (h : ¬ (pat.data <:+: s.data)) :
    pyReplace s pat rep = s := by
  apply String.ext
  exact repGo_no_occ _ _ _ _ h

/-! ## Lemmas about paths and suffix classes -/

theorem takeWhile_append_all {p : Char → Bool} {l₁ l₂ : List Char}
    (h : ∀ c ∈ l₁, p c = true) :
    (l₁ ++ l₂).takeWhile p = l₁ ++ l₂.takeWhile p := by
  induction l₁ with
  | nil => rfl
  | cons c cs ih =>
    simp only [List.cons_append, List.takeWhile_cons]
    rw [h c (List.mem_cons_self c cs)]
    simp [ih (fun x hx => h x (List.mem_cons_of_mem c hx))]

theorem suffix_basename {e s : String} (h : e.data <:+ s.data)
    (he : ∀ c ∈ e.data, c ≠ '/') : e.data <:+ (basename s).data := by
  obtain ⟨t, ht⟩ := h
  show e.data <:+ (s.data.reverse.takeWhile (fun c => c ≠ '/')).reverse
  rw [← ht, List.reverse_append]
  rw [takeWhile_append_all (p := fun c => decide (c ≠ '/'))
    (fun c hc => by simpa using he c (List.mem_reverse.mp hc))]
  rw [List.reverse_append, List.reverse_reverse]
  exact List.suffix_append _ _

theorem tail3_suffix {e s : String} (h : e.data <:+ s.data) (h3 : 3 ≤ e.data.length) :
    tail3 s = e.data.reverse.take 3 := by
  obtain ⟨t, ht⟩ := h
  unfold tail3
  rw [← ht, List.reverse_append, List.take_append_of_le_length (by simpa using h3)]

theorem ne_of_tail3 {x y : String} (h : tail3 x ≠ tail3 y) : x ≠ y :=
  fun hh => h (hh ▸ rfl)

theorem ne_of_classes {x y ex ey : String} (hx : ex.data <:+ x.data)
    (hy : ey.data <:+ y.data) (h3x : 3 ≤ ex.data.length) (h3y : 3 ≤ ey.data.length)
    (hne : ex.data.reverse.take 3 ≠ ey.data.reverse.take 3) : x ≠ y :=
  ne_of_tail3 (by rw [tail3_suffix hx h3x, tail3_suffix hy h3y]; exact hne)

theorem str_append_cancel {a b c : String} (h : a ++ c = b ++ c) : a = b :=
  String.ext (List.append_cancel_right (congrArg String.data h))

theorem str_append_assoc (a b c : String) : a ++ b ++ c = a ++ (b ++ c) :=
  String.ext (List.append_assoc _ _ _)

theorem jpeg_suffix (x : String) : (".jpg" : String).data <:+ (jpegName x).data := by
  unfold jpegName
  exact List.suffix_append _ _

theorem suffix_of_append_suffix {e t : String} (b : String) (h : e.data <:+ t.data) :
    e.data <:+ (b ++ t).data := h.trans (List.suffix_append _ _)

theorem tail3_append_lit (b e : String) (h3 : 3 ≤ e.data.length) :
    tail3 (b ++ e) = e.data.reverse.take 3 :=
  tail3_suffix (List.suffix_append _ _) h3

theorem tail3_basename_append (b t : String) (h3 : 3 ≤ t.data.length)
    (hslash : ∀ c ∈ t.data, c ≠ '/') :
    tail3 (basename (b ++ t)) = t.data.reverse.take 3 :=
  tail3_suffix (suffix_basename (List.suffix_append _ _) hslash) h3

/-! ## Derived artifact names under the dataset's naming conventions -/

theorem gainSRPath_eq (gstem : String)
    (h : cleanApp ("x1.m1.dm4" : String).data gstem.data = true) :
    gainSRPath (gstem ++ "x1.m1.dm4") = gstem ++ "_SuperRes.x1.m1.mrc" :=
  pyReplace_clean _ _ _ (by decide) h

theorem gainRefPath_eq (gstem : String)
    (h1 : cleanApp ("x1.m1.dm4" : String).data gstem.data = true)
    (h2 : cleanApp ("_SuperRes.x1.m1.mrc" : String).data gstem.data = true) :
    gainRefPath (gstem ++ "x1.m1.dm4") = gstem ++ "_std.x1.m1.mrc" := by
  unfold gainRefPath
  rw [gainSRPath_eq gstem h1]
  exact pyReplace_clean _ _ _ (by decide) h2

theorem flipYSRPath_eq (gstem : String)
    (h1 : cleanApp ("x1.m1.dm4" : String).data gstem.data = true)
    (h2 : cleanApp ("_SuperRes.x1.m1.mrc" : String).data gstem.data = true) :
    flipYSRPath (gstem ++ "x1.m1.dm4") = gstem ++ "_sr.flipy.x1.m1.mrc" := by
  unfold flipYSRPath
  rw [gainSRPath_eq gstem h1]
  exact pyReplace_clean _ _ _ (by decide) h2

theorem flipYPath_eq (gstem : String)
    (h1 : cleanApp ("x1.m1.dm4" : String).data gstem.data = true)
    (h2 : cleanApp ("_SuperRes.x1.m1.mrc" : String).data gstem.data = true)
    (h3 : cleanApp ("_std.x1.m1.mrc" : String).data gstem.data = true) :
    flipYPath (gstem ++ "x1.m1.dm4") = gstem ++ "_std.flipy.x1.m1.mrc" := by
  unfold flipYPath
  rw [gainRefPath_eq gstem h1 h2]
  exact pyReplace_clean _ _ _ (by decide) h3

theorem defectMapPath_eq (dstem : String)
    (h : cleanApp (".dm4" : String).data dstem.data = true) :
    defectMapPath (dstem ++ ".dm4") = dstem ++ ".mrc" :=
  pyReplace_clean _ _ _ (by decide) h

theorem mrc_replace_eq (b rep : String)
    (h : cleanApp (".mrc" : String).data b.data = true) :
    pyReplace (b ++ ".mrc") ".mrc" rep = b ++ rep :=
  pyReplace_clean _ _ _ (by decide) h

/-! ## Lemmas about the construction -/

theorem processFile_ok (p : Params) (fy : String) (st : WfState) (f : String)
    (hext : p.basenameExt = "tiff" ∨ p.basenameExt = "mrc" ∨ p.basenameExt = "eer") :
    processFile p fy st f =
      ({ jobs := st.jobs ++ perFileJobs p fy f, rc := st.rc ++ perFileRC f }, none) := by
  simp [processFile, if_pos hext, perFileJobs, perFileRC, List.append_assoc]

theorem processFile_exit (p : Params) (fy : String) (st : WfState) (f : String)
    (hext : ¬ (p.basenameExt = "tiff" ∨ p.basenameExt = "mrc" ∨ p.basenameExt = "eer")) :
    processFile p fy st f =
      ({ jobs := st.jobs ++ [copyJpegJob f], rc := st.rc ++ perFileRC f },
        some (PyErr.systemExit 1)) := by
  simp [processFile, if_neg hext, perFileRC, List.append_assoc]

theorem processFiles_ok (p : Params) (fy : String)
    (hext : p.basenameExt = "tiff" ∨ p.basenameExt = "mrc" ∨ p.basenameExt = "eer") :
    ∀ (sel : List String) (st : WfState),
      processFiles p fy st sel =
        ({ jobs := st.jobs ++ sel.flatMap (perFileJobs p fy),
           rc := st.rc ++ sel.flatMap perFileRC }, none) := by
  intro sel
  induction sel with
  | nil => intro st; simp [processFiles]
  | cons f rest ih =>
    intro st
    simp [processFiles, processFile_ok p fy st f hext, ih, List.append_assoc]

theorem create_workflow_ok (p : Params) (g d : String) (grest drest ff : List String)
    (seed : Nat) (sel : List String)
    (hsample : sample seed ff (sampleCount p.debug) = some sel)
    (hext : p.basenameExt = "tiff" ∨ p.basenameExt = "mrc" ∨ p.basenameExt = "eer") :
    create_workflow p (g :: grest) (d :: drest) ff seed =
      ({ jobs := gainDefectJobs g d ++
           sel.flatMap (perFileJobs p (basename (flipYPath g))),
         rc := [(basename g, "file://" ++ g), (basename d, "file://" ++ d)] ++
           sel.flatMap perFileRC }, none) := by
  simp [create_workflow, hsample, processFiles_ok _ _ hext, gainDefectState]

/-! ## Claim C1: two-run determinism of graph construction -/

/-- C1, counterexample: the same parameters, the same discovered raw
inputs (11 fraction files, debug mode), but two runs of `create_workflow`
with different hidden RNG states yield different graphs, because
`random.sample` picks a different 10-element subset. -/
theorem claim_C1_counterexample :
    create_workflow p0 [gain0] [defect0] (fracN 11) 0 ≠
      create_workflow p0 [gain0] [defect0] (fracN 11) 1 := by decide

/-- C1, amended: graph construction is deterministic given the sampled
subset — the RNG state is consumed only by `random.sample`, so whenever
two runs draw the same sample they produce identical graphs (same jobs,
same artifact names, same replica table, hence the same derived edges). -/
theorem claim_C1 (p : Params) (gainFiles defectFiles ff : List String) (s1 s2 : Nat)
    (h : sample s1 ff (sampleCount p.debug) = sample s2 ff (sampleCount p.debug)) :
    create_workflow p gainFiles defectFiles ff s1 =
      create_workflow p gainFiles defectFiles ff s2 := by
  unfold create_workflow
  cases gainFiles with
  | nil => rfl
  | cons g gr =>
    cases defectFiles with
    | nil => rfl
    | cons d dr => rw [h]

/-- C1 witness: seeds 0 and 11 draw the same sample from an 11-element
population, and the two runs coincide. -/
theorem claim_C1_witness :
    create_workflow p0 [gain0] [defect0] (fracN 11) 0 =
      create_workflow p0 [gain0] [defect0] (fracN 11) 11 :=
  claim_C1 p0 [gain0] [defect0] (fracN 11) 0 11 (by decide)

/-! ## Claim C2: the gain-reference naming-chain scenario -/

/-- C2, counterexample: the first rule applied to `foo_x1.m1.dm4`
(line 237 of the source, `str.replace`) yields `foo__SuperRes.x1.m1.mrc`
— with a doubled underscore — not the claimed `foo_SuperRes.x1.m1.mrc`. -/
theorem claim_C2_counterexample :
    gainSRPath "foo_x1.m1.dm4" = "foo__SuperRes.x1.m1.mrc" ∧
      ("foo__SuperRes.x1.m1.mrc" : String) ≠ "foo_SuperRes.x1.m1.mrc" := by decide

/-- C2, amended: on the raw name `foo_x1.m1.dm4` the first rule derives
`foo__SuperRes.x1.m1.mrc` (the replacement's leading underscore doubles
the one already before the matched text), and the second rule applied to
that result derives `foo__std.x1.m1.mrc`. -/
theorem claim_C2 :
    gainSRPath "foo_x1.m1.dm4" = "foo__SuperRes.x1.m1.mrc" ∧
    pyReplace "foo__SuperRes.x1.m1.mrc" "_SuperRes.x1.m1.mrc" "_std.x1.m1.mrc" =
      "foo__std.x1.m1.mrc" ∧
    gainRefPath "foo_x1.m1.dm4" = "foo__std.x1.m1.mrc" := by decide

/-! ## Claim C3: behaviour on empty discovery results -/

/-- C3, counterexample: with zero gain-reference matches the construction
fails with an uncaught `IndexError` (`find_files2(...)[0]` on an empty
list), not with the spec's `EmptyInputSetError` — no such error kind
exists anywhere in the code. -/
theorem claim_C3_counterexample :
    (create_workflow p0 [] [defect0] (fracN 11) 37).2 = some PyErr.indexError ∧
      some PyErr.indexError ≠ some PyErr.emptyInputSetError := by decide

/-- C3, amended: zero discovered matches do abort construction — no
graph is handed back — but via an uncaught `IndexError` (gain reference,
defect map) or `ValueError` from `random.sample` (fraction files), not
via an `EmptyInputSetError`. -/
theorem claim_C3 (p : Params) (gf df ff : List String) (g d : String) (seed : Nat) :
    (create_workflow p [] df ff seed).2 = some PyErr.indexError ∧
    (create_workflow p (g :: gf) [] ff seed).2 = some PyErr.indexError ∧
    (create_workflow p (g :: gf) (d :: df) [] seed).2 = some PyErr.valueError := by
  refine ⟨rfl, rfl, ?_⟩
  cases hd : p.debug <;> simp [create_workflow, sample, sampleCount, hd]

/-! ## Claim C4: non-matching rules and NamingChainError -/

/-- C4, counterexample: a naming rule whose pattern does not occur in the
path leaves the path unchanged and construction continues to completion —
nothing resembling a `NamingChainError` is raised (the run below finishes
with no error at all even though the gain-reference rules never match
`bar.txt`). -/
theorem claim_C4_counterexample :
    gainSRPath "bar.txt" = "bar.txt" ∧
      (create_workflow p0 ["bar.txt"] [defect0] (fracN 10) 0).2 = none := by decide

/-- C4, amended: name derivation is total — `str.replace` with a pattern
that does not occur in the path returns the path unchanged; no rule is
required to match and no error is ever raised by derivation. -/
theorem claim_C4 (path pat rep : String) (h : ¬ (pat.data <:+: path.data)) :
    pyReplace path pat rep = path :=
  pyReplace_no_occ path pat rep h

/-- C4 witness: the gain-reference pattern does not occur in `bar.txt`
and the replace leaves it unchanged. -/
theorem claim_C4_witness :
    pyReplace "bar.txt" "x1.m1.dm4" "_SuperRes.x1.m1.mrc" = "bar.txt" :=
  claim_C4 "bar.txt" "x1.m1.dm4" "_SuperRes.x1.m1.mrc" (by decide)

/-! ## Claim C7: the clustering policy -/

/-- C7: in every run the four per-acquisition job types (`copy_jpeg`,
`MotionCor2`, `gctf`, `e2proc2d`) are assigned one shared `clusters.size`
value chosen once from the mode flag — 5 under debug, 100 in production —
and the debug size is strictly lower than the production size. -/
theorem claim_C7 (baseDir : String) :
    (∀ b : Bool,
      clusterSizeOf (create_transformation_catalog baseDir b) "copy_jpeg" =
          some (if b then 5 else 100) ∧
      clusterSizeOf (create_transformation_catalog baseDir b) "MotionCor2" =
          some (if b then 5 else 100) ∧
      clusterSizeOf (create_transformation_catalog baseDir b) "gctf" =
          some (if b then 5 else 100) ∧
      clusterSizeOf (create_transformation_catalog baseDir b) "e2proc2d" =
          some (if b then 5 else 100)) ∧
    (5 : Nat) < 100 := by
  refine ⟨fun b => ?_, by decide⟩
  cases b <;> exact ⟨rfl, rfl, rfl, rfl⟩

/-! ## Claim C10: unknown image extension exits mid-construction -/

/-- C10: with an extension other than `tiff`/`mrc`/`eer`, the run reaches
the first sampled fraction file and terminates via `sys.exit(1)`
(modelled as `PyErr.systemExit 1`), after the five gain-reference and
defect-map jobs (and the first `copy_jpeg` job) are already in the
workflow — none of the spec's declared construction-error kinds is
surfaced. -/
theorem claim_C10 (p : Params) (g d : String) (grest drest ff : List String)
    (seed : Nat) (f : String) (rest : List String)
    (hext : ¬ (p.basenameExt = "tiff" ∨ p.basenameExt = "mrc" ∨ p.basenameExt = "eer"))
    (hsample : sample seed ff (sampleCount p.debug) = some (f :: rest)) :
    create_workflow p (g :: grest) (d :: drest) ff seed =
      ({ jobs := gainDefectJobs g d ++ [copyJpegJob f],
         rc := [(basename g, "file://" ++ g), (basename d, "file://" ++ d)] ++
           perFileRC f },
        some (PyErr.systemExit 1)) ∧
    (gainDefectJobs g d).length = 5 := by
  refine ⟨?_, rfl⟩
  simp [create_workflow, hsample, processFiles, processFile_exit _ _ _ _ hext,
    gainDefectState, perFileRC, List.append_assoc]

/-- C10 witness: a debug run over 10 discovered fraction files with
extension `raw` exits with status 1 right after the five conversion jobs
and the first `copy_jpeg` job. -/
theorem claim_C10_witness :
    (create_workflow pBad [gain0] [defect0] (fracN 10) 0 =
      ({ jobs := gainDefectJobs gain0 defect0 ++
           [copyJpegJob "/in/Images-Disc1/G1/Data/m_0_fractions.tiff"],
         rc := [(basename gain0, "file://" ++ gain0),
                (basename defect0, "file://" ++ defect0)] ++
           perFileRC "/in/Images-Disc1/G1/Data/m_0_fractions.tiff" },
        some (PyErr.systemExit 1))) ∧
    (gainDefectJobs gain0 defect0).length = 5 :=
  claim_C10 pBad gain0 defect0 [] [] (fracN 10) 0
    "/in/Images-Disc1/G1/Data/m_0_fractions.tiff" ((fracN 10).tail)
    (by decide) (by decide)

/-! ## Claim C9: the sampling policy -/

theorem count_motioncor_flatMap (p : Params) (fy : String) (sel : List String) :
    ((sel.flatMap (perFileJobs p fy)).filter
        (fun j => j.transformation = "MotionCor2")).length = sel.length := by
  induction sel with
  | nil => rfl
  | cons f rest ih =>
    simp only [List.flatMap_cons, List.filter_append, List.length_append, ih]
    simp [perFileJobs, copyJpegJob, motionCorJob, gctfJob, e2proc2dJob, List.filter]
    omega

theorem count_motioncor_gainDefect (g d : String) :
    ((gainDefectJobs g d).filter (fun j => j.transformation = "MotionCor2")).length = 0 := by
  simp [gainDefectJobs, dm2mrcGainrefJob, newstackGainrefJob, clipGainrefJob,
    clipGainrefSRJob, dm2mrcDefectMapJob, List.filter]

/-- C9: the loop runs over a `random.sample` of the discovered fraction
files — 10 of them in debug mode and 1000 in production (the seed models
the unseeded global RNG state) — so a run builds exactly
`sampleCount debug` per-acquisition `MotionCor2` nodes when at least that
many files were discovered, and aborts with `ValueError` (building no
per-acquisition node at all) when fewer were discovered. -/
theorem claim_C9 (p : Params) (g d : String) (grest drest ff : List String) (seed : Nat)
    (hext : p.basenameExt = "tiff") :
    (sampleCount true = 10 ∧ sampleCount false = 1000) ∧
    (ff.length < sampleCount p.debug →
      (create_workflow p (g :: grest) (d :: drest) ff seed).2 = some PyErr.valueError ∧
      countJobs "MotionCor2" (create_workflow p (g :: grest) (d :: drest) ff seed).1 = 0) ∧
    (sampleCount p.debug ≤ ff.length →
      (create_workflow p (g :: grest) (d :: drest) ff seed).2 = none ∧
      countJobs "MotionCor2" (create_workflow p (g :: grest) (d :: drest) ff seed).1 =
        sampleCount p.debug) := by
  refine ⟨by decide, fun hlt => ?_, fun hle => ?_⟩
  · have hs : sample seed ff (sampleCount p.debug) = none := by
      simp [sample, hlt]
    simp [create_workflow, hs, countJobs, gainDefectState, count_motioncor_gainDefect]
  · have hs : sample seed ff (sampleCount p.debug) =
        some ((ff.rotate seed).take (sampleCount p.debug)) := by
      simp [sample]
      omega
    rw [create_workflow_ok p g d grest drest ff seed _ hs (Or.inl hext)]
    refine ⟨rfl, ?_⟩
    simp only [countJobs, List.filter_append, List.length_append,
      count_motioncor_gainDefect, count_motioncor_flatMap, Nat.zero_add]
    rw [List.length_take, List.length_rotate]
    omega

/-- C9 witness: a production-style hypothesis set at a concrete input —
debug mode, no discovered fraction files (0 < 10) — where the run aborts
with `ValueError` and builds no `MotionCor2` node. -/
theorem claim_C9_witness :
    (sampleCount true = 10 ∧ sampleCount false = 1000) ∧
    (([] : List String).length < sampleCount p0.debug →
      (create_workflow p0 [gain0] [defect0] [] 0).2 = some PyErr.valueError ∧
      countJobs "MotionCor2" (create_workflow p0 [gain0] [defect0] [] 0).1 = 0) ∧
    (sampleCount p0.debug ≤ ([] : List String).length →
      (create_workflow p0 [gain0] [defect0] [] 0).2 = none ∧
      countJobs "MotionCor2" (create_workflow p0 [gain0] [defect0] [] 0).1 =
        sampleCount p0.debug) :=
  claim_C9 p0 gain0 defect0 [] [] [] 0 (by decide)

/-! ## Suffix-class tables for produced and raw artifact names -/

theorem out_tails (p : Params) (gstem dstem : String) (sel : List String)
    (hg1 : cleanApp ("x1.m1.dm4" : String).data gstem.data = true)
    (hg2 : cleanApp ("_SuperRes.x1.m1.mrc" : String).data gstem.data = true)
    (hg3 : cleanApp ("_std.x1.m1.mrc" : String).data gstem.data = true)
    (hd1 : cleanApp (".dm4" : String).data dstem.data = true)
    (hsel : ∀ f ∈ sel, cleanApp (".mrc" : String).data (fracBase p f).data = true) :
    ∀ j ∈ gainDefectJobs (gstem ++ "x1.m1.dm4") (dstem ++ ".dm4") ++
        sel.flatMap (perFileJobs p (basename (flipYPath (gstem ++ "x1.m1.dm4")))),
      ∀ o ∈ outLfns j, tail3 o ∈ prodTails := by
  intro j hj o ho
  rw [List.mem_append] at hj
  rcases hj with hj | hj
  · simp only [gainDefectJobs, List.mem_cons, List.not_mem_nil, or_false] at hj
    rcases hj with rfl | rfl | rfl | rfl | rfl
    · simp only [outLfns, dm2mrcGainrefJob, List.map_cons, List.map_nil,
        List.mem_singleton] at ho
      rw [ho, gainSRPath_eq gstem hg1, tail3_basename_append _ _ (by decide) (by decide)]
      decide
    · simp only [outLfns, newstackGainrefJob, List.map_cons, List.map_nil,
        List.mem_singleton] at ho
      rw [ho, gainRefPath_eq gstem hg1 hg2,
        tail3_basename_append _ _ (by decide) (by decide)]
      decide
    · simp only [outLfns, clipGainrefJob, List.map_cons, List.map_nil,
        List.mem_singleton] at ho
      rw [ho, flipYPath_eq gstem hg1 hg2 hg3,
        tail3_basename_append _ _ (by decide) (by decide)]
      decide
    · simp only [outLfns, clipGainrefSRJob, List.map_cons, List.map_nil,
        List.mem_singleton] at ho
      rw [ho, flipYSRPath_eq gstem hg1 hg2,
        tail3_basename_append _ _ (by decide) (by decide)]
      decide
    · simp only [outLfns, dm2mrcDefectMapJob, List.map_cons, List.map_nil,
        List.mem_singleton] at ho
      rw [ho, defectMapPath_eq dstem hd1,
        tail3_basename_append _ _ (by decide) (by decide)]
      decide
  · rw [List.mem_flatMap] at hj
    obtain ⟨f, hf, hjf⟩ := hj
    simp only [perFileJobs, List.mem_cons, List.not_mem_nil, or_false] at hjf
    rcases hjf with rfl | rfl | rfl | rfl
    · simp only [outLfns, copyJpegJob, List.map_cons, List.map_nil,
        List.mem_singleton] at ho
      rw [ho, tail3_suffix (jpeg_suffix _) (by decide)]
      decide
    · simp only [outLfns, motionCorJob, List.map_cons, List.map_nil,
        List.mem_cons, List.mem_singleton, List.not_mem_nil, or_false] at ho
      rcases ho with rfl | rfl
      · rw [tail3_append_lit _ ".mrc" (by decide)]; decide
      · rw [tail3_append_lit _ "_DW.mrc" (by decide)]; decide
    · simp only [outLfns, gctfJob, List.map_cons, List.map_nil,
        List.mem_cons, List.mem_singleton, List.not_mem_nil, or_false] at ho
      rcases ho with rfl | rfl | rfl
      · rw [mrc_replace_eq _ _ (hsel f hf), tail3_append_lit _ ".star" (by decide)]; decide
      · rw [mrc_replace_eq _ _ (hsel f hf), tail3_append_lit _ ".ctf" (by decide)]; decide
      · rw [mrc_replace_eq _ _ (hsel f hf), tail3_append_lit _ "_gctf.log" (by decide)]
        decide
    · simp only [outLfns, e2proc2dJob, List.map_cons, List.map_nil,
        List.mem_singleton] at ho
      rw [ho, mrc_replace_eq _ _ (hsel f hf), tail3_append_lit _ "_ctf.jpg" (by decide)]
      decide

theorem rc_tails (gstem dstem : String) (sel : List String)
    (hsel : ∀ f ∈ sel, (".tiff" : String).data <:+ (basename f).data) :
    ∀ r ∈ [(basename (gstem ++ "x1.m1.dm4"), "file://" ++ (gstem ++ "x1.m1.dm4")),
           (basename (dstem ++ ".dm4"), "file://" ++ (dstem ++ ".dm4"))] ++
          sel.flatMap perFileRC,
      tail3 r.1 ∈ rawTails := by
  intro r hr
  rw [List.mem_append] at hr
  rcases hr with hr | hr
  · simp only [List.mem_cons, List.not_mem_nil, or_false] at hr
    rcases hr with rfl | rfl
    · rw [tail3_basename_append _ _ (by decide) (by decide)]
      decide
    · rw [tail3_basename_append _ _ (by decide) (by decide)]
      decide
  · rw [List.mem_flatMap] at hr
    obtain ⟨f, hf, hrf⟩ := hr
    simp only [perFileRC, List.mem_cons, List.not_mem_nil, or_false] at hrf
    rcases hrf with rfl | rfl
    · rw [tail3_suffix (hsel f hf) (by decide)]
      decide
    · rw [tail3_append_lit _ "-IN" (by decide)]
      decide

/-! ## Claim C8: the replica table holds exactly the raw artifacts -/

/-- C8: in a completed run the replica table contains exactly the raw
gain reference, the raw defect map and, per sampled acquisition, the
fraction file and the fake `-IN` jpeg input, each mapped to its
`file://` source path; and no node-produced artifact name ever appears
in the replica table (raw names end in `.dm4`/`.tiff`/`-IN` while every
produced name ends in `.mrc`/`.star`/`.ctf`/`.log`/`.jpg`). -/
theorem claim_C8 (p : Params) (gstem dstem : String) (grest drest ff : List String)
    (seed : Nat) (sel : List String)
    (hext : p.basenameExt = "tiff")
    (hsample : sample seed ff (sampleCount p.debug) = some sel)
    (hg1 : cleanApp ("x1.m1.dm4" : String).data gstem.data = true)
    (hg2 : cleanApp ("_SuperRes.x1.m1.mrc" : String).data gstem.data = true)
    (hg3 : cleanApp ("_std.x1.m1.mrc" : String).data gstem.data = true)
    (hd1 : cleanApp (".dm4" : String).data dstem.data = true)
    (hsel1 : ∀ f ∈ sel, (".tiff" : String).data <:+ (basename f).data)
    (hsel2 : ∀ f ∈ sel, cleanApp (".mrc" : String).data (fracBase p f).data = true) :
    (create_workflow p ((gstem ++ "x1.m1.dm4") :: grest) ((dstem ++ ".dm4") :: drest)
        ff seed).1.rc =
      [(basename (gstem ++ "x1.m1.dm4"), "file://" ++ (gstem ++ "x1.m1.dm4")),
       (basename (dstem ++ ".dm4"), "file://" ++ (dstem ++ ".dm4"))] ++
      sel.flatMap perFileRC ∧
    ∀ r ∈ (create_workflow p ((gstem ++ "x1.m1.dm4") :: grest) ((dstem ++ ".dm4") :: drest)
        ff seed).1.rc,
      ∀ j ∈ (create_workflow p ((gstem ++ "x1.m1.dm4") :: grest) ((dstem ++ ".dm4") :: drest)
        ff seed).1.jobs, r.1 ∉ outLfns j := by
  rw [create_workflow_ok p _ _ grest drest ff seed sel hsample (Or.inl hext)]
  refine ⟨rfl, ?_⟩
  intro r hr j hj ho
  have h1 := rc_tails gstem dstem sel hsel1 r hr
  have h2 := out_tails p gstem dstem sel hg1 hg2 hg3 hd1 hsel2 j hj r.1 ho
  exact (by decide : ∀ a ∈ rawTails, a ∉ prodTails) _ h1 h2

/-- C8 witness: a concrete completed debug run (11 discovered fraction
files, seed 0) whose replica table is exactly the raw artifacts. -/
theorem claim_C8_witness :
    (create_workflow p0 (("/in/CountRef_" ++ "x1.m1.dm4") :: [])
        (("/in/defects" ++ ".dm4") :: []) (fracN 11) 0).1.rc =
      [(basename ("/in/CountRef_" ++ "x1.m1.dm4"),
        "file://" ++ ("/in/CountRef_" ++ "x1.m1.dm4")),
       (basename ("/in/defects" ++ ".dm4"), "file://" ++ ("/in/defects" ++ ".dm4"))] ++
      (((fracN 11).rotate 0).take 10).flatMap perFileRC ∧
    ∀ r ∈ (create_workflow p0 (("/in/CountRef_" ++ "x1.m1.dm4") :: [])
        (("/in/defects" ++ ".dm4") :: []) (fracN 11) 0).1.rc,
      ∀ j ∈ (create_workflow p0 (("/in/CountRef_" ++ "x1.m1.dm4") :: [])
        (("/in/defects" ++ ".dm4") :: []) (fracN 11) 0).1.jobs, r.1 ∉ outLfns j :=
  claim_C8 p0 "/in/CountRef_" "/in/defects" [] [] (fracN 11) 0
    (((fracN 11).rotate 0).take 10) (by decide) (by decide) (by decide) (by decide)
    (by decide) (by decide) (by decide) (by decide)

/-! ## Claim C6: edges derive solely from shared artifacts -/

/-- C6: no edge is ever declared explicitly — the edge relation is by
definition "some artifact is an output of X and an input of Y"
(`infer_dependencies=True`, modelled from the spec since the engine is
external); concretely, the super-resolution gain reference links
`dm2mrc_gainref` to `newstack_gainref` and to `clip_gainref_superres`,
the flipped standard gain reference links `clip_gainref` to every
`MotionCor2` node of the run, and the producer-less raw artifacts (the
replica-table entries) are not an error: the run completes with no
producer for any of them. -/
theorem claim_C6 (p : Params) (gstem dstem : String) (grest drest ff : List String)
    (seed : Nat) (sel : List String)
    (hext : p.basenameExt = "tiff")
    (hsample : sample seed ff (sampleCount p.debug) = some sel)
    (hg1 : cleanApp ("x1.m1.dm4" : String).data gstem.data = true)
    (hg2 : cleanApp ("_SuperRes.x1.m1.mrc" : String).data gstem.data = true)
    (hg3 : cleanApp ("_std.x1.m1.mrc" : String).data gstem.data = true)
    (hd1 : cleanApp (".dm4" : String).data dstem.data = true)
    (hsel1 : ∀ f ∈ sel, (".tiff" : String).data <:+ (basename f).data)
    (hsel2 : ∀ f ∈ sel, cleanApp (".mrc" : String).data (fracBase p f).data = true) :
    (∀ x y : Job, edge x y ↔ ∃ a, a ∈ outLfns x ∧ a ∈ y.inputs) ∧
    edge (dm2mrcGainrefJob (gstem ++ "x1.m1.dm4"))
      (newstackGainrefJob (gstem ++ "x1.m1.dm4")) ∧
    edge (dm2mrcGainrefJob (gstem ++ "x1.m1.dm4"))
      (clipGainrefSRJob (gstem ++ "x1.m1.dm4")) ∧
    (∀ j ∈ (create_workflow p ((gstem ++ "x1.m1.dm4") :: grest)
        ((dstem ++ ".dm4") :: drest) ff seed).1.jobs,
      j.transformation = "MotionCor2" →
        edge (clipGainrefJob (gstem ++ "x1.m1.dm4")) j) ∧
    (create_workflow p ((gstem ++ "x1.m1.dm4") :: grest)
        ((dstem ++ ".dm4") :: drest) ff seed).2 = none ∧
    (∀ r ∈ (create_workflow p ((gstem ++ "x1.m1.dm4") :: grest)
        ((dstem ++ ".dm4") :: drest) ff seed).1.rc,
      ∀ j ∈ (create_workflow p ((gstem ++ "x1.m1.dm4") :: grest)
        ((dstem ++ ".dm4") :: drest) ff seed).1.jobs, r.1 ∉ outLfns j) := by
  rw [create_workflow_ok p _ _ grest drest ff seed sel hsample (Or.inl hext)]
  refine ⟨fun x y => Iff.rfl,
    ⟨basename (gainSRPath (gstem ++ "x1.m1.dm4")),
      by simp [outLfns, dm2mrcGainrefJob], by simp [newstackGainrefJob]⟩,
    ⟨basename (gainSRPath (gstem ++ "x1.m1.dm4")),
      by simp [outLfns, dm2mrcGainrefJob], by simp [clipGainrefSRJob]⟩,
    ?_, rfl, ?_⟩
  · intro j hj htr
    rw [List.mem_append] at hj
    rcases hj with hj | hj
    · simp only [gainDefectJobs, List.mem_cons, List.not_mem_nil, or_false] at hj
      rcases hj with rfl | rfl | rfl | rfl | rfl
      · exact absurd htr (show ¬("dm2mrc_gainref" : String) = "MotionCor2" by decide)
      · exact absurd htr (show ¬("newstack_gainref" : String) = "MotionCor2" by decide)
      · exact absurd htr (show ¬("clip_gainref" : String) = "MotionCor2" by decide)
      · exact absurd htr (show ¬("clip_gainref_superres" : String) = "MotionCor2" by decide)
      · exact absurd htr (show ¬("dm2mrc_defect_map" : String) = "MotionCor2" by decide)
    · rw [List.mem_flatMap] at hj
      obtain ⟨f, hf, hjf⟩ := hj
      simp only [perFileJobs, List.mem_cons, List.not_mem_nil, or_false] at hjf
      rcases hjf with rfl | rfl | rfl | rfl
      · exact absurd htr (show ¬("copy_jpeg" : String) = "MotionCor2" by decide)
      · exact ⟨basename (flipYPath (gstem ++ "x1.m1.dm4")),
          by simp [outLfns, clipGainrefJob], by simp [motionCorJob]⟩
      · exact absurd htr (show ¬("gctf" : String) = "MotionCor2" by decide)
      · exact absurd htr (show ¬("e2proc2d" : String) = "MotionCor2" by decide)
  · intro r hr j hj ho
    have h1 := rc_tails gstem dstem sel hsel1 r hr
    have h2 := out_tails p gstem dstem sel hg1 hg2 hg3 hd1 hsel2 j hj r.1 ho
    exact (by decide : ∀ a ∈ rawTails, a ∉ prodTails) _ h1 h2

/-- C6 witness: the same concrete completed debug run as for the replica
table, exhibiting the inferred edges and the error-free handling of
producer-less raw inputs. -/
theorem claim_C6_witness :
    (∀ x y : Job, edge x y ↔ ∃ a, a ∈ outLfns x ∧ a ∈ y.inputs) ∧
    edge (dm2mrcGainrefJob ("/in/CountRef_" ++ "x1.m1.dm4"))
      (newstackGainrefJob ("/in/CountRef_" ++ "x1.m1.dm4")) ∧
    edge (dm2mrcGainrefJob ("/in/CountRef_" ++ "x1.m1.dm4"))
      (clipGainrefSRJob ("/in/CountRef_" ++ "x1.m1.dm4")) ∧
    (∀ j ∈ (create_workflow p0 (("/in/CountRef_" ++ "x1.m1.dm4") :: [])
        (("/in/defects" ++ ".dm4") :: []) (fracN 11) 7).1.jobs,
      j.transformation = "MotionCor2" →
        edge (clipGainrefJob ("/in/CountRef_" ++ "x1.m1.dm4")) j) ∧
    (create_workflow p0 (("/in/CountRef_" ++ "x1.m1.dm4") :: [])
        (("/in/defects" ++ ".dm4") :: []) (fracN 11) 7).2 = none ∧
    (∀ r ∈ (create_workflow p0 (("/in/CountRef_" ++ "x1.m1.dm4") :: [])
        (("/in/defects" ++ ".dm4") :: []) (fracN 11) 7).1.rc,
      ∀ j ∈ (create_workflow p0 (("/in/CountRef_" ++ "x1.m1.dm4") :: [])
        (("/in/defects" ++ ".dm4") :: []) (fracN 11) 7).1.jobs, r.1 ∉ outLfns j) :=
  claim_C6 p0 "/in/CountRef_" "/in/defects" [] [] (fracN 11) 7
    (((fracN 11).rotate 7).take 10) (by decide) (by decide) (by decide) (by decide)
    (by decide) (by decide) (by decide) (by decide)

/-! ## Per-acquisition subgraph shape (claim C5 infrastructure) -/

theorem str_append_left_cancel {a b c : String} (h : a ++ b = a ++ c) : b = c :=
  String.ext (List.append_cancel_left (congrArg String.data h))

theorem ne_of_tail3_eq {x y : String} {tx ty : List Char}
    (hx : tail3 x = tx) (hy : tail3 y = ty) (ht : tx ≠ ty) : x ≠ y :=
  ne_of_tail3 (by rw [hx, hy]; exact ht)

theorem str_append_ne_right {a b : String} (c : String) (h : a ≠ b) : a ++ c ≠ b ++ c :=
  fun hh => h (str_append_cancel hh)

theorem str_dw_ne {b b' : String} (h : b ++ "_DW" ≠ b') : b ++ "_DW.mrc" ≠ b' ++ ".mrc" :=
  fun hh => h (str_append_cancel ((str_append_assoc b "_DW" ".mrc").trans hh))

theorem perFileJobs_types (p : Params) (fy : String) : ∀ sel : List String,
    (sel.flatMap (perFileJobs p fy)).map (fun j => j.transformation) =
      sel.flatMap (fun _ => ["copy_jpeg", "MotionCor2", "gctf", "e2proc2d"]) := by
  intro sel
  induction sel with
  | nil => rfl
  | cons f r ih =>
    simp [List.flatMap_cons, ih, perFileJobs, copyJpegJob, motionCorJob, gctfJob,
      e2proc2dJob]

theorem perFile_edges (p : Params) (fy f : String)
    (hbn : (".tiff" : String).data <:+ (basename f).data)
    (hcl : cleanApp (".mrc" : String).data (fracBase p f).data = true)
    (hfy : (".mrc" : String).data <:+ fy.data)
    (hfy1 : fy ≠ fracBase p f ++ ".mrc") (hfy2 : fy ≠ fracBase p f ++ "_DW.mrc") :
    edge (motionCorJob p fy f) (gctfJob p f) ∧
    edge (gctfJob p f) (e2proc2dJob p f) ∧
    ¬ edge (copyJpegJob f) (copyJpegJob f) ∧
    ¬ edge (copyJpegJob f) (motionCorJob p fy f) ∧
    ¬ edge (copyJpegJob f) (gctfJob p f) ∧
    ¬ edge (copyJpegJob f) (e2proc2dJob p f) ∧
    ¬ edge (motionCorJob p fy f) (copyJpegJob f) ∧
    ¬ edge (motionCorJob p fy f) (motionCorJob p fy f) ∧
    ¬ edge (motionCorJob p fy f) (e2proc2dJob p f) ∧
    ¬ edge (gctfJob p f) (copyJpegJob f) ∧
    ¬ edge (gctfJob p f) (motionCorJob p fy f) ∧
    ¬ edge (gctfJob p f) (gctfJob p f) ∧
    ¬ edge (e2proc2dJob p f) (copyJpegJob f) ∧
    ¬ edge (e2proc2dJob p f) (motionCorJob p fy f) ∧
    ¬ edge (e2proc2dJob p f) (gctfJob p f) ∧
    ¬ edge (e2proc2dJob p f) (e2proc2dJob p f) := by
  have hT_fn : tail3 (basename f) = ['f', 'f', 'i'] :=
    (tail3_suffix hbn (by decide)).trans (by decide)
  have hT_jn : tail3 (jpegName (basename f)) = ['g', 'p', 'j'] :=
    (tail3_suffix (jpeg_suffix _) (by decide)).trans (by decide)
  have hT_jin : tail3 (jpegName (basename f) ++ "-IN") = ['N', 'I', '-'] :=
    (tail3_append_lit _ _ (by decide)).trans (by decide)
  have hT_mrc : tail3 (fracBase p f ++ ".mrc") = ['c', 'r', 'm'] :=
    (tail3_append_lit _ _ (by decide)).trans (by decide)
  have hT_dw : tail3 (fracBase p f ++ "_DW.mrc") = ['c', 'r', 'm'] :=
    (tail3_append_lit _ _ (by decide)).trans (by decide)
  have hT_star : tail3 (fracBase p f ++ ".star") = ['r', 'a', 't'] :=
    (tail3_append_lit _ _ (by decide)).trans (by decide)
  have hT_ctf : tail3 (fracBase p f ++ ".ctf") = ['f', 't', 'c'] :=
    (tail3_append_lit _ _ (by decide)).trans (by decide)
  have hT_log : tail3 (fracBase p f ++ "_gctf.log") = ['g', 'o', 'l'] :=
    (tail3_append_lit _ _ (by decide)).trans (by decide)
  have hT_jctf : tail3 (fracBase p f ++ "_ctf.jpg") = ['g', 'p', 'j'] :=
    (tail3_append_lit _ _ (by decide)).trans (by decide)
  have hT_fy : tail3 fy = ['c', 'r', 'm'] := (tail3_suffix hfy (by decide)).trans (by decide)
  have n1 : jpegName (basename f) ≠ jpegName (basename f) ++ "-IN" :=
    ne_of_tail3_eq hT_jn hT_jin (by decide)
  have n2 : jpegName (basename f) ≠ basename f := ne_of_tail3_eq hT_jn hT_fn (by decide)
  have n3 : jpegName (basename f) ≠ fy := ne_of_tail3_eq hT_jn hT_fy (by decide)
  have n4 : jpegName (basename f) ≠ fracBase p f ++ ".mrc" :=
    ne_of_tail3_eq hT_jn hT_mrc (by decide)
  have n5 : jpegName (basename f) ≠ fracBase p f ++ ".ctf" :=
    ne_of_tail3_eq hT_jn hT_ctf (by decide)
  have n6 : fracBase p f ++ ".mrc" ≠ jpegName (basename f) ++ "-IN" :=
    ne_of_tail3_eq hT_mrc hT_jin (by decide)
  have n7 : fracBase p f ++ ".mrc" ≠ basename f := ne_of_tail3_eq hT_mrc hT_fn (by decide)
  have n8 : fracBase p f ++ ".mrc" ≠ fy := hfy1.symm
  have n9 : fracBase p f ++ ".mrc" ≠ fracBase p f ++ ".ctf" :=
    ne_of_tail3_eq hT_mrc hT_ctf (by decide)
  have n10 : fracBase p f ++ "_DW.mrc" ≠ jpegName (basename f) ++ "-IN" :=
    ne_of_tail3_eq hT_dw hT_jin (by decide)
  have n11 : fracBase p f ++ "_DW.mrc" ≠ basename f := ne_of_tail3_eq hT_dw hT_fn (by decide)
  have n12 : fracBase p f ++ "_DW.mrc" ≠ fy := hfy2.symm
  have n14 : fracBase p f ++ "_DW.mrc" ≠ fracBase p f ++ ".ctf" :=
    ne_of_tail3_eq hT_dw hT_ctf (by decide)
  have n15 : fracBase p f ++ ".star" ≠ jpegName (basename f) ++ "-IN" :=
    ne_of_tail3_eq hT_star hT_jin (by decide)
  have n16 : fracBase p f ++ ".ctf" ≠ jpegName (basename f) ++ "-IN" :=
    ne_of_tail3_eq hT_ctf hT_jin (by decide)
  have n17 : fracBase p f ++ "_gctf.log" ≠ jpegName (basename f) ++ "-IN" :=
    ne_of_tail3_eq hT_log hT_jin (by decide)
  have n18 : fracBase p f ++ ".star" ≠ basename f := ne_of_tail3_eq hT_star hT_fn (by decide)
  have n19 : fracBase p f ++ ".ctf" ≠ basename f := ne_of_tail3_eq hT_ctf hT_fn (by decide)
  have n20 : fracBase p f ++ "_gctf.log" ≠ basename f :=
    ne_of_tail3_eq hT_log hT_fn (by decide)
  have n21 : fracBase p f ++ ".star" ≠ fy := ne_of_tail3_eq hT_star hT_fy (by decide)
  have n22 : fracBase p f ++ ".ctf" ≠ fy := ne_of_tail3_eq hT_ctf hT_fy (by decide)
  have n23 : fracBase p f ++ "_gctf.log" ≠ fy := ne_of_tail3_eq hT_log hT_fy (by decide)
  have n24 : fracBase p f ++ ".star" ≠ fracBase p f ++ ".mrc" :=
    ne_of_tail3_eq hT_star hT_mrc (by decide)
  have n25 : fracBase p f ++ ".ctf" ≠ fracBase p f ++ ".mrc" :=
    ne_of_tail3_eq hT_ctf hT_mrc (by decide)
  have n26 : fracBase p f ++ "_gctf.log" ≠ fracBase p f ++ ".mrc" :=
    ne_of_tail3_eq hT_log hT_mrc (by decide)
  have n27 : fracBase p f ++ "_ctf.jpg" ≠ jpegName (basename f) ++ "-IN" :=
    ne_of_tail3_eq hT_jctf hT_jin (by decide)
  have n28 : fracBase p f ++ "_ctf.jpg" ≠ basename f :=
    ne_of_tail3_eq hT_jctf hT_fn (by decide)
  have n29 : fracBase p f ++ "_ctf.jpg" ≠ fy := ne_of_tail3_eq hT_jctf hT_fy (by decide)
  have n30 : fracBase p f ++ "_ctf.jpg" ≠ fracBase p f ++ ".mrc" :=
    ne_of_tail3_eq hT_jctf hT_mrc (by decide)
  have n31 : fracBase p f ++ "_ctf.jpg" ≠ fracBase p f ++ ".ctf" :=
    ne_of_tail3_eq hT_jctf hT_ctf (by decide)
  refine ⟨⟨fracBase p f ++ ".mrc", by simp [outLfns, motionCorJob], by simp [gctfJob]⟩,
    ⟨pyReplace (fracBase p f ++ ".mrc") ".mrc" ".ctf",
      by simp [outLfns, gctfJob], by simp [e2proc2dJob]⟩,
    ?_, ?_, ?_, ?_, ?_, ?_, ?_, ?_, ?_, ?_, ?_, ?_, ?_, ?_⟩ <;>
  simp [edge, outLfns, copyJpegJob, motionCorJob, gctfJob, e2proc2dJob,
    mrc_replace_eq _ _ hcl, n1, n2, n3, n4, n5, n6, n7, n8, n9, n10, n11, n12, n14, n15, n16, n17, n18, n19, n20, n21, n22, n23, n24, n25, n26, n27, n28, n29, n30, n31, n1.symm, n2.symm, n3.symm, n4.symm, n5.symm, n6.symm, n7.symm, n8.symm, n9.symm, n10.symm, n11.symm, n12.symm, n14.symm, n15.symm, n16.symm, n17.symm, n18.symm, n19.symm, n20.symm, n21.symm, n22.symm, n23.symm, n24.symm, n25.symm, n26.symm, n27.symm, n28.symm, n29.symm, n30.symm, n31.symm]

theorem perFile_cross (p : Params) (fy f f' : String)
    (hbn' : (".tiff" : String).data <:+ (basename f').data)
    (hcl : cleanApp (".mrc" : String).data (fracBase p f).data = true)
    (hcl' : cleanApp (".mrc" : String).data (fracBase p f').data = true)
    (hfy : (".mrc" : String).data <:+ fy.data)
    (hfy1 : fy ≠ fracBase p f ++ ".mrc") (hfy2 : fy ≠ fracBase p f ++ "_DW.mrc")
    (hb1 : fracBase p f ≠ fracBase p f')
    (hb2 : fracBase p f ++ "_DW" ≠ fracBase p f') :
    ∀ jx ∈ perFileJobs p fy f, ∀ jy ∈ perFileJobs p fy f', ¬ edge jx jy := by
  have hT_jn : tail3 (jpegName (basename f)) = ['g', 'p', 'j'] :=
    (tail3_suffix (jpeg_suffix _) (by decide)).trans (by decide)
  have hT_mrc : tail3 (fracBase p f ++ ".mrc") = ['c', 'r', 'm'] :=
    (tail3_append_lit _ _ (by decide)).trans (by decide)
  have hT_dw : tail3 (fracBase p f ++ "_DW.mrc") = ['c', 'r', 'm'] :=
    (tail3_append_lit _ _ (by decide)).trans (by decide)
  have hT_star : tail3 (fracBase p f ++ ".star") = ['r', 'a', 't'] :=
    (tail3_append_lit _ _ (by decide)).trans (by decide)
  have hT_ctf : tail3 (fracBase p f ++ ".ctf") = ['f', 't', 'c'] :=
    (tail3_append_lit _ _ (by decide)).trans (by decide)
  have hT_log : tail3 (fracBase p f ++ "_gctf.log") = ['g', 'o', 'l'] :=
    (tail3_append_lit _ _ (by decide)).trans (by decide)
  have hT_jctf : tail3 (fracBase p f ++ "_ctf.jpg") = ['g', 'p', 'j'] :=
    (tail3_append_lit _ _ (by decide)).trans (by decide)
  have hT_fy : tail3 fy = ['c', 'r', 'm'] := (tail3_suffix hfy (by decide)).trans (by decide)
  have hT_fn2 : tail3 (basename f') = ['f', 'f', 'i'] :=
    (tail3_suffix hbn' (by decide)).trans (by decide)
  have hT_jin2 : tail3 (jpegName (basename f') ++ "-IN") = ['N', 'I', '-'] :=
    (tail3_append_lit _ _ (by decide)).trans (by decide)
  have hT_mrc2 : tail3 (fracBase p f' ++ ".mrc") = ['c', 'r', 'm'] :=
    (tail3_append_lit _ _ (by decide)).trans (by decide)
  have hT_ctf2 : tail3 (fracBase p f' ++ ".ctf") = ['f', 't', 'c'] :=
    (tail3_append_lit _ _ (by decide)).trans (by decide)
  have m1 : jpegName (basename f) ≠ jpegName (basename f') ++ "-IN" :=
    ne_of_tail3_eq hT_jn hT_jin2 (by decide)
  have m2 : jpegName (basename f) ≠ basename f' := ne_of_tail3_eq hT_jn hT_fn2 (by decide)
  have m3 : jpegName (basename f) ≠ fy := ne_of_tail3_eq hT_jn hT_fy (by decide)
  have m4 : jpegName (basename f) ≠ fracBase p f' ++ ".mrc" :=
    ne_of_tail3_eq hT_jn hT_mrc2 (by decide)
  have m5 : jpegName (basename f) ≠ fracBase p f' ++ ".ctf" :=
    ne_of_tail3_eq hT_jn hT_ctf2 (by decide)
  have m6 : fracBase p f ++ ".mrc" ≠ jpegName (basename f') ++ "-IN" :=
    ne_of_tail3_eq hT_mrc hT_jin2 (by decide)
  have m7 : fracBase p f ++ ".mrc" ≠ basename f' := ne_of_tail3_eq hT_mrc hT_fn2 (by decide)
  have m8 : fracBase p f ++ ".mrc" ≠ fy := hfy1.symm
  have m9 : fracBase p f ++ ".mrc" ≠ fracBase p f' ++ ".mrc" := str_append_ne_right _ hb1
  have m10 : fracBase p f ++ ".mrc" ≠ fracBase p f' ++ ".ctf" :=
    ne_of_tail3_eq hT_mrc hT_ctf2 (by decide)
  have m11 : fracBase p f ++ "_DW.mrc" ≠ jpegName (basename f') ++ "-IN" :=
    ne_of_tail3_eq hT_dw hT_jin2 (by decide)
  have m12 : fracBase p f ++ "_DW.mrc" ≠ basename f' :=
    ne_of_tail3_eq hT_dw hT_fn2 (by decide)
  have m13 : fracBase p f ++ "_DW.mrc" ≠ fy := hfy2.symm
  have m14 : fracBase p f ++ "_DW.mrc" ≠ fracBase p f' ++ ".mrc" := str_dw_ne hb2
  have m15 : fracBase p f ++ "_DW.mrc" ≠ fracBase p f' ++ ".ctf" :=
    ne_of_tail3_eq hT_dw hT_ctf2 (by decide)
  have m16 : fracBase p f ++ ".star" ≠ jpegName (basename f') ++ "-IN" :=
    ne_of_tail3_eq hT_star hT_jin2 (by decide)
  have m17 : fracBase p f ++ ".star" ≠ basename f' :=
    ne_of_tail3_eq hT_star hT_fn2 (by decide)
  have m18 : fracBase p f ++ ".star" ≠ fy := ne_of_tail3_eq hT_star hT_fy (by decide)
  have m19 : fracBase p f ++ ".star" ≠ fracBase p f' ++ ".mrc" :=
    ne_of_tail3_eq hT_star hT_mrc2 (by decide)
  have m20 : fracBase p f ++ ".star" ≠ fracBase p f' ++ ".ctf" :=
    ne_of_tail3_eq hT_star hT_ctf2 (by decide)
  have m21 : fracBase p f ++ ".ctf" ≠ jpegName (basename f') ++ "-IN" :=
    ne_of_tail3_eq hT_ctf hT_jin2 (by decide)
  have m22 : fracBase p f ++ ".ctf" ≠ basename f' := ne_of_tail3_eq hT_ctf hT_fn2 (by decide)
  have m23 : fracBase p f ++ ".ctf" ≠ fy := ne_of_tail3_eq hT_ctf hT_fy (by decide)
  have m24 : fracBase p f ++ ".ctf" ≠ fracBase p f' ++ ".mrc" :=
    ne_of_tail3_eq hT_ctf hT_mrc2 (by decide)
  have m25 : fracBase p f ++ ".ctf" ≠ fracBase p f' ++ ".ctf" := str_append_ne_right _ hb1
  have m26 : fracBase p f ++ "_gctf.log" ≠ jpegName (basename f') ++ "-IN" :=
    ne_of_tail3_eq hT_log hT_jin2 (by decide)
  have m27 : fracBase p f ++ "_gctf.log" ≠ basename f' :=
    ne_of_tail3_eq hT_log hT_fn2 (by decide)
  have m28 : fracBase p f ++ "_gctf.log" ≠ fy := ne_of_tail3_eq hT_log hT_fy (by decide)
  have m29 : fracBase p f ++ "_gctf.log" ≠ fracBase p f' ++ ".mrc" :=
    ne_of_tail3_eq hT_log hT_mrc2 (by decide)
  have m30 : fracBase p f ++ "_gctf.log" ≠ fracBase p f' ++ ".ctf" :=
    ne_of_tail3_eq hT_log hT_ctf2 (by decide)
  have m31 : fracBase p f ++ "_ctf.jpg" ≠ jpegName (basename f') ++ "-IN" :=
    ne_of_tail3_eq hT_jctf hT_jin2 (by decide)
  have m32 : fracBase p f ++ "_ctf.jpg" ≠ basename f' :=
    ne_of_tail3_eq hT_jctf hT_fn2 (by decide)
  have m33 : fracBase p f ++ "_ctf.jpg" ≠ fy := ne_of_tail3_eq hT_jctf hT_fy (by decide)
  have m34 : fracBase p f ++ "_ctf.jpg" ≠ fracBase p f' ++ ".mrc" :=
    ne_of_tail3_eq hT_jctf hT_mrc2 (by decide)
  have m35 : fracBase p f ++ "_ctf.jpg" ≠ fracBase p f' ++ ".ctf" :=
    ne_of_tail3_eq hT_jctf hT_ctf2 (by decide)
  intro jx hjx jy hjy
  simp only [perFileJobs, List.mem_cons, List.not_mem_nil, or_false] at hjx hjy
  rcases hjx with rfl | rfl | rfl | rfl <;> rcases hjy with rfl | rfl | rfl | rfl <;>
  simp [edge, outLfns, copyJpegJob, motionCorJob, gctfJob, e2proc2dJob,
    mrc_replace_eq _ _ hcl, mrc_replace_eq _ _ hcl', m1, m2, m3, m4, m5, m6, m7, m8,
    m9, m10, m11, m12, m13, m14, m15, m16, m17, m18, m19, m20, m21, m22, m23, m24,
    m25, m26, m27, m28, m29, m30, m31, m32, m33, m34, m35, m1.symm, m2.symm, m3.symm,
    m4.symm, m5.symm, m6.symm, m7.symm, m8.symm, m9.symm, m10.symm, m11.symm,
    m12.symm, m13.symm, m14.symm, m15.symm, m16.symm, m17.symm, m18.symm, m19.symm,
    m20.symm, m21.symm, m22.symm, m23.symm, m24.symm, m25.symm, m26.symm, m27.symm,
    m28.symm, m29.symm, m30.symm, m31.symm, m32.symm, m33.symm, m34.symm, m35.symm]

/-! ## Claim C5: N identical, independent per-acquisition subgraphs -/

/-- C5, counterexample: with 11 discovered fraction files (debug mode)
the graph contains 10 per-acquisition subgraphs — one per sampled file —
not 11: the claim's "exactly N" fails for the discovered set. -/
theorem claim_C5_counterexample :
    (fracN 11).length = 11 ∧
    countJobs "copy_jpeg" (create_workflow p0 [gain0] [defect0] (fracN 11) 0).1 = 10 ∧
    (10 : Nat) ≠ 11 := by decide

/-- C5, amended: for the *sampled* files (10 in debug, 1000 in
production) the graph contains exactly one per-acquisition subgraph per
sampled file, all of the same shape: the node-type sequence is
`copy_jpeg, MotionCor2, gctf, e2proc2d` for every acquisition, the only
intra-acquisition edges are `MotionCor2 → gctf → e2proc2d` (identical
topology, names differing only with the acquisition), and — when the
acquisitions' derived base names do not collide — there is no edge
between jobs of two different acquisitions. -/
theorem claim_C5 (p : Params) (gstem dstem : String) (grest drest ff : List String)
    (seed : Nat) (sel : List String)
    (hext : p.basenameExt = "tiff")
    (hsample : sample seed ff (sampleCount p.debug) = some sel)
    (hg1 : cleanApp ("x1.m1.dm4" : String).data gstem.data = true)
    (hg2 : cleanApp ("_SuperRes.x1.m1.mrc" : String).data gstem.data = true)
    (hg3 : cleanApp ("_std.x1.m1.mrc" : String).data gstem.data = true)
    (hsel1 : ∀ f ∈ sel, (".tiff" : String).data <:+ (basename f).data)
    (hsel2 : ∀ f ∈ sel, cleanApp (".mrc" : String).data (fracBase p f).data = true)
    (hflip : ∀ f ∈ sel,
      basename (flipYPath (gstem ++ "x1.m1.dm4")) ≠ fracBase p f ++ ".mrc" ∧
      basename (flipYPath (gstem ++ "x1.m1.dm4")) ≠ fracBase p f ++ "_DW.mrc")
    (hpair : sel.Pairwise (fun f f' => fracBase p f ≠ fracBase p f' ∧
      fracBase p f ++ "_DW" ≠ fracBase p f' ∧ fracBase p f' ++ "_DW" ≠ fracBase p f)) :
    ((create_workflow p ((gstem ++ "x1.m1.dm4") :: grest) ((dstem ++ ".dm4") :: drest)
        ff seed).1.jobs =
      gainDefectJobs (gstem ++ "x1.m1.dm4") (dstem ++ ".dm4") ++
        sel.flatMap (perFileJobs p (basename (flipYPath (gstem ++ "x1.m1.dm4"))))) ∧
    (create_workflow p ((gstem ++ "x1.m1.dm4") :: grest) ((dstem ++ ".dm4") :: drest)
        ff seed).2 = none ∧
    ((sel.flatMap (perFileJobs p (basename (flipYPath (gstem ++ "x1.m1.dm4"))))).map
        (fun j => j.transformation) =
      sel.flatMap (fun _ => ["copy_jpeg", "MotionCor2", "gctf", "e2proc2d"])) ∧
    (∀ f ∈ sel,
      edge (motionCorJob p (basename (flipYPath (gstem ++ "x1.m1.dm4"))) f)
        (gctfJob p f) ∧
      edge (gctfJob p f) (e2proc2dJob p f) ∧
      ¬ edge (copyJpegJob f) (copyJpegJob f) ∧
      ¬ edge (copyJpegJob f)
        (motionCorJob p (basename (flipYPath (gstem ++ "x1.m1.dm4"))) f) ∧
      ¬ edge (copyJpegJob f) (gctfJob p f) ∧
      ¬ edge (copyJpegJob f) (e2proc2dJob p f) ∧
      ¬ edge (motionCorJob p (basename (flipYPath (gstem ++ "x1.m1.dm4"))) f)
        (copyJpegJob f) ∧
      ¬ edge (motionCorJob p (basename (flipYPath (gstem ++ "x1.m1.dm4"))) f)
        (motionCorJob p (basename (flipYPath (gstem ++ "x1.m1.dm4"))) f) ∧
      ¬ edge (motionCorJob p (basename (flipYPath (gstem ++ "x1.m1.dm4"))) f)
        (e2proc2dJob p f) ∧
      ¬ edge (gctfJob p f) (copyJpegJob f) ∧
      ¬ edge (gctfJob p f)
        (motionCorJob p (basename (flipYPath (gstem ++ "x1.m1.dm4"))) f) ∧
      ¬ edge (gctfJob p f) (gctfJob p f) ∧
      ¬ edge (e2proc2dJob p f) (copyJpegJob f) ∧
      ¬ edge (e2proc2dJob p f)
        (motionCorJob p (basename (flipYPath (gstem ++ "x1.m1.dm4"))) f) ∧
      ¬ edge (e2proc2dJob p f) (gctfJob p f) ∧
      ¬ edge (e2proc2dJob p f) (e2proc2dJob p f)) ∧
    sel.Pairwise (fun f f' =>
      (∀ jx ∈ perFileJobs p (basename (flipYPath (gstem ++ "x1.m1.dm4"))) f,
        ∀ jy ∈ perFileJobs p (basename (flipYPath (gstem ++ "x1.m1.dm4"))) f',
          ¬ edge jx jy) ∧
      (∀ jx ∈ perFileJobs p (basename (flipYPath (gstem ++ "x1.m1.dm4"))) f',
        ∀ jy ∈ perFileJobs p (basename (flipYPath (gstem ++ "x1.m1.dm4"))) f,
          ¬ edge jx jy)) := by
  have hfyS : (".mrc" : String).data <:+
      (basename (flipYPath (gstem ++ "x1.m1.dm4"))).data := by
    rw [flipYPath_eq gstem hg1 hg2 hg3]
    exact suffix_basename (suffix_of_append_suffix _ (by decide)) (by decide)
  rw [create_workflow_ok p _ _ grest drest ff seed sel hsample (Or.inl hext)]
  refine ⟨rfl, rfl, perFileJobs_types p _ sel, ?_, ?_⟩
  · intro f hf
    exact perFile_edges p _ f (hsel1 f hf) (hsel2 f hf) hfyS (hflip f hf).1 (hflip f hf).2
  · refine List.Pairwise.imp_of_mem ?_ hpair
    intro f f' hf hf' hrel
    exact ⟨perFile_cross p _ f f' (hsel1 f' hf') (hsel2 f hf) (hsel2 f' hf') hfyS
        (hflip f hf).1 (hflip f hf).2 hrel.1 hrel.2.1,
      perFile_cross p _ f' f (hsel1 f hf) (hsel2 f' hf') (hsel2 f hf) hfyS
        (hflip f' hf').1 (hflip f' hf').2 hrel.1.symm hrel.2.2⟩

/-- C5 witness: the concrete 11-file debug run satisfies all the naming
side conditions, and its job list is the five conversion jobs followed by
the ten sampled per-acquisition subgraphs. -/
theorem claim_C5_witness :
    (create_workflow p0 (("/in/CountRef_" ++ "x1.m1.dm4") :: [])
        (("/in/defects" ++ ".dm4") :: []) (fracN 11) 0).1.jobs =
      gainDefectJobs ("/in/CountRef_" ++ "x1.m1.dm4") ("/in/defects" ++ ".dm4") ++
        (((fracN 11).rotate 0).take 10).flatMap
          (perFileJobs p0 (basename (flipYPath ("/in/CountRef_" ++ "x1.m1.dm4")))) :=
  (claim_C5 p0 "/in/CountRef_" "/in/defects" [] [] (fracN 11) 0
    (((fracN 11).rotate 0).take 10) (by decide) (by decide) (by decide) (by decide)
    (by decide) (by decide) (by decide) (by decide) (by decide)).1

end CryoPW
